import Mathlib

/-!
Shallow embedding of the streaming-chat client core of the repository
(src/frontend/src/App.tsx and src/frontend/src/hooks/useWebSocket.ts),
together with theorems settling the frozen claims about it.

The embedded parts are:
* the data model from src/frontend/src/types/index.ts (Message,
  QueryDebugInfo, ChunkInfo, WebSocketMessage);
* the inbound-event handler handleWebSocketMessage of App.tsx
  (lines 112-177);
* the send path sendMessageToServer of App.tsx (lines 626-662);
* the connection manager connect / send / onmessage of useWebSocket.ts.

Modelling conventions:
* JavaScript arrays become Lean lists; the TS pattern
  `const a = [...prev]; const last = a[a.length-1]; if (g(last)) mutate`
  becomes the structural function `updateLast`.
* The optional boolean field `isStreaming?` is modelled as a `Bool`
  with `false` standing for `undefined`: every use in the source is a
  truthiness test or an assignment, so the two are observationally
  identical.
* `Date.now()` is passed in as a `Nat` argument, ISO timestamps as a
  `String` argument.
* JSON numeric fields of the debug payload carry no arithmetic in the
  client, so counts are `Nat` and scores are `Rat`.
-/

namespace ConfluenceChat

/-- Message role, from `role: 'user' | 'assistant'` in types/index.ts. -/
inductive Role
  | user
  | assistant
deriving DecidableEq

/-- ChunkInfo from types/index.ts. -/
structure ChunkInfo where
  page_title : String
  page_url : String
  similarity : Rat
deriving DecidableEq

/-- QueryDebugInfo from types/index.ts. -/
structure QueryDebugInfo where
  original_query : String
  expanded_queries : List String
  cql_query : String
  pages_searched : Nat
  total_chunks_considered : Nat
  chunks_selected : Nat
  context_chars_used : Nat
  context_budget : Nat
  top_k : Nat
  mmr_lambda : Rat
  max_chunks_per_page : Nat
  selected_chunks_info : List ChunkInfo
deriving DecidableEq

/-- Message from types/index.ts.  `isStreaming?: boolean` is a `Bool`
(false for undefined, see module conventions); the remaining optional
fields are `Option`s. -/
structure Message where
  id : String
  role : Role
  content : String
  timestamp : String
  isStreaming : Bool := false
  sources : Option String := none
  debugInfo : Option QueryDebugInfo := none
  isBookmarked : Option Bool := none
  feedback : Option Int := none
  isEdited : Option Bool := none
deriving DecidableEq

/-- WebSocketMessage from types/index.ts: `type` is the discriminator,
`content` is `string | QueryDebugInfo`.  The handler reads `content` as
a string in every case except `debug` (where it reads the structured
payload) and ignores it on `complete`, so each constructor carries the
payload at the type the handler casts it to. -/
inductive WSMessage
  | status (content : String)
  | token (content : String)
  | sources (content : String)
  | debug (content : QueryDebugInfo)
  | complete (content : String)
  | error (content : String)
deriving DecidableEq

/-- The slice of App.tsx component state that the streaming core reads
and writes: `messages`, `isLoading`, `status`, `error`,
`currentMessageRef.current`, and a counter of `loadConversations()`
refresh triggers. -/
structure AppState where
  messages : List Message
  isLoading : Bool
  status : String
  error : Option String
  currentMessage : String
  refreshes : Nat
deriving DecidableEq

/-- Initial component state of App.tsx: `useState<Message[]>([])`,
`useState(false)`, `useState('')`, `useState<string | null>(null)`,
`useRef<string>('')`. -/
def initialState : AppState :=
  { messages := [], isLoading := false, status := "", error := none,
    currentMessage := "", refreshes := 0 }

/-- Embedding of the TS mutation pattern used by the `token`, `sources`,
`debug` and `complete` cases of handleWebSocketMessage:
`const a = [...prev]; const last = a[a.length - 1];
 if (last && guard(last)) mutate(last); return a`. -/
def updateLast (guard : Message → Bool) (f : Message → Message) :
    List Message → List Message
  | [] => []
  | [m] => if guard m then [f m] else [m]
  | m :: m2 :: rest => m :: updateLast guard f (m2 :: rest)

/-- Embedding of the `error` case list mutation of handleWebSocketMessage:
`if (a.length > 0 && a[a.length - 1].isStreaming) a.pop()`. -/
def popLastIf (guard : Message → Bool) : List Message → List Message
  | [] => []
  | [m] => if guard m then [] else [m]
  | m :: m2 :: rest => m :: popLastIf guard (m2 :: rest)

/-- handleWebSocketMessage of App.tsx (lines 112-177), as a pure state
transformer.  In the `token` case the accumulator update
`currentMessageRef.current += content` happens before the list update,
and the list update overwrites the streaming message's content with the
accumulator's new value. -/
def handleWebSocketMessage (w : WSMessage) (st : AppState) : AppState :=
  match w with
  | .status c => { st with status := c }
  | .token c =>
      let acc := st.currentMessage ++ c
      { st with
          currentMessage := acc,
          messages :=
            updateLast (fun m => m.role == Role.assistant && m.isStreaming)
              (fun m => { m with content := acc }) st.messages }
  | .sources c =>
      { st with
          messages :=
            updateLast (fun m => m.role == Role.assistant)
              (fun m => { m with content := m.content ++ c, sources := some c })
              st.messages }
  | .debug d =>
      { st with
          messages :=
            updateLast (fun m => m.role == Role.assistant)
              (fun m => { m with debugInfo := some d }) st.messages }
  | .complete _ =>
      { st with
          messages :=
            updateLast (fun m => m.role == Role.assistant)
              (fun m => { m with isStreaming := false }) st.messages,
          isLoading := false, status := "", currentMessage := "",
          refreshes := st.refreshes + 1 }
  | .error c =>
      { st with
          error := some c, isLoading := false, status := "",
          currentMessage := "",
          messages := popLastIf (fun m => m.isStreaming) st.messages }

/-- Folding a sequence of inbound events through the handler, in arrival
order. -/
def processEvents (evs : List WSMessage) (st : AppState) : AppState :=
  evs.foldl (fun s e => handleWebSocketMessage e s) st

/-- Outbound payload shape sent by sendMessageToServer:
`{ conversation_id, content, history }` where history entries are
`{ role, content }` pairs. -/
structure OutPayload where
  conversation_id : String
  content : String
  history : List (Role × String)
deriving DecidableEq

/-- The user message built by sendMessageToServer (App.tsx lines 629-634). -/
def userMessageOf (now : Nat) (content ts : String) : Message :=
  { id := toString now, role := .user, content := content, timestamp := ts }

/-- The streaming assistant placeholder built by sendMessageToServer
(App.tsx lines 637-643). -/
def assistantPlaceholder (now : Nat) (ts : String) : Message :=
  { id := toString (now + 1), role := .assistant, content := "",
    timestamp := ts, isStreaming := true }

/-- sendMessageToServer of App.tsx (lines 626-662).  `sent` is the boolean
returned by the connection manager's `send`.  The `history` payload is
built from the closure variable `messages`, which is the render-time
snapshot `st.messages`: the two optimistic `setMessages` calls do not
change it.  On send failure the code runs `setError('Not connected to
server')`, `setIsLoading(false)` and `setMessages(prev => prev.slice(0, -1))`,
which drops only the last element (the assistant placeholder). -/
def sendMessageToServer (conversationId content : String) (now : Nat)
    (ts : String) (st : AppState) (sent : Bool) : AppState × OutPayload :=
  let st1 := { st with error := none }
  let st2 := { st1 with messages := st1.messages ++ [userMessageOf now content ts] }
  let st3 := { st2 with messages := st2.messages ++ [assistantPlaceholder now ts] }
  let st4 := { st3 with isLoading := true, currentMessage := "" }
  let history := st.messages.map (fun msg => (msg.role, msg.content))
  let payload : OutPayload :=
    { conversation_id := conversationId, content := content, history := history }
  if sent then (st4, payload)
  else ({ st4 with
            error := some "Not connected to server",
            isLoading := false,
            messages := st4.messages.dropLast }, payload)

/-- Ready state of the platform channel (WebSocket.CONNECTING / OPEN /
CLOSING / CLOSED); `opened` stands for WebSocket.OPEN. -/
inductive ReadyState
  | connecting
  | opened
  | closing
  | closed
deriving DecidableEq

/-- The connection manager's mutable state in useWebSocket.ts:
`isConnectingRef.current` and the ready state of `wsRef.current`
(`none` when the ref is null). -/
structure WSConnState where
  isConnecting : Bool
  ws : Option ReadyState
deriving DecidableEq

/-- The relevant part of `window.location`: the page protocol string
(e.g. "https:") and host. -/
structure PageLocation where
  protocol : String
  host : String

/-- The endpoint URL built by connect (useWebSocket.ts lines 23-24):
`(protocol === 'https:' ? 'wss:' : 'ws:') + '//' + host + '/ws/chat'`. -/
def wsUrlOf (loc : PageLocation) : String :=
  (if loc.protocol = "https:" then "wss:" else "ws:") ++ "//" ++ loc.host
    ++ "/ws/chat"

/-- connect of useWebSocket.ts (lines 16-26 and 58): a no-op when the
guard `isConnectingRef.current || wsRef.current?.readyState === OPEN`
holds; otherwise it sets the guard, constructs one new WebSocket (which
starts in the CONNECTING ready state) to the fixed endpoint and stores
it in the ref.  The second component reports the URL of the channel
created by this call, `none` when no channel was created. -/
def connect (loc : PageLocation) (st : WSConnState) :
    WSConnState × Option String :=
  if st.isConnecting = true ∨ st.ws = some ReadyState.opened then (st, none)
  else ({ isConnecting := true, ws := some ReadyState.connecting },
        some (wsUrlOf loc))

/-- send of useWebSocket.ts (lines 73-79): transmits the serialized
payload and returns true only when the channel exists and is OPEN;
otherwise returns false and transmits nothing. -/
def wsSend (st : WSConnState) (payload : OutPayload) : Bool × Option OutPayload :=
  match st.ws with
  | some ReadyState.opened => (true, some payload)
  | _ => (false, none)

/-- The ws.onmessage handler of useWebSocket.ts (lines 33-40): the frame
body is parsed (JSON.parse, modelled by the `parse` argument); on
success the typed event is handed to the caller's onMessage callback
(handleWebSocketMessage in App.tsx); a parse failure is caught, logged
and the frame dropped.  The result is the new app state, the event that
was delivered to the callback (none when no delivery happened), and
whether the parse-failure log was emitted.  The function is total: no
exception escapes the handler. -/
def onFrame (parse : String → Option WSMessage) (frame : String)
    (st : AppState) : AppState × Option WSMessage × Bool :=
  match parse frame with
  | some m => (handleWebSocketMessage m st, some m, false)
  | none => (st, none, true)

/-- Concatenation of a list of strings in order (the spec's
"concatenation of all token payloads in arrival order"). -/
def concatAll : List String → String
  | [] => ""
  | s :: rest => s ++ concatAll rest

/-- Number of messages in a list whose streaming flag is set. -/
def countStreaming (ms : List Message) : Nat :=
  (ms.filter (fun m => m.isStreaming)).length

/-- Scheme test on a URL: its first four characters are "wss:" (the
secure WebSocket scheme). -/
def usesSecureScheme (u : String) : Bool :=
  decide (u.data.take 4 = "wss:".data)

/-! Helper lemmas about the two list-mutation patterns. -/

theorem updateLast_append (g : Message → Bool) (f : Message → Message)
    (ms : List Message) (m : Message) :
    updateLast g f (ms ++ [m]) = ms ++ [if g m then f m else m] := by
  induction ms with
  | nil => cases hg : g m <;> simp [updateLast, hg]
  | cons a l ih =>
      cases hl : l ++ [m] with
      | nil => exact absurd hl (by simp)
      | cons b bs =>
          have h1 : updateLast g f ((a :: l) ++ [m])
              = a :: updateLast g f (l ++ [m]) := by
            rw [List.cons_append, hl]; rfl
          rw [h1, ih]; rfl

theorem popLastIf_append (g : Message → Bool) (ms : List Message)
    (m : Message) :
    popLastIf g (ms ++ [m]) = ms ++ (if g m then [] else [m]) := by
  induction ms with
  | nil => cases hg : g m <;> simp [popLastIf, hg]
  | cons a l ih =>
      cases hl : l ++ [m] with
      | nil => exact absurd hl (by simp)
      | cons b bs =>
          have h1 : popLastIf g ((a :: l) ++ [m])
              = a :: popLastIf g (l ++ [m]) := by
            rw [List.cons_append, hl]; rfl
          rw [h1, ih]; rfl

theorem countStreaming_append (ms ns : List Message) :
    countStreaming (ms ++ ns) = countStreaming ms + countStreaming ns := by
  simp [countStreaming, List.filter_append]

/-- Folding a run of `token` events through the handler, given that the
list ends in a streaming assistant message whose content mirrors the
accumulator: the final content and accumulator both extend the starting
accumulator by the concatenation of the payloads. -/
theorem token_fold (toks : List String) :
    ∀ (st : AppState) (ms : List Message) (m : Message),
      st.messages = ms ++ [m] → m.role = .assistant → m.isStreaming = true →
      m.content = st.currentMessage →
      (processEvents (toks.map WSMessage.token) st).messages
          = ms ++ [{ m with content := st.currentMessage ++ concatAll toks }]
        ∧ (processEvents (toks.map WSMessage.token) st).currentMessage
          = st.currentMessage ++ concatAll toks := by
  induction toks with
  | nil =>
      intro st ms m hmsgs hrole hstream hcontent
      refine ⟨?_, by simp [processEvents, concatAll]⟩
      simp only [List.map_nil, processEvents, List.foldl_nil, hmsgs, concatAll]
      rw [← hcontent]
      simp
  | cons t toks ih =>
      intro st ms m hmsgs hrole hstream hcontent
      have hguard : (fun m => m.role == Role.assistant && m.isStreaming) m = true := by
        simp [hrole, hstream]
      have hstep :
          processEvents ((t :: toks).map WSMessage.token) st
            = processEvents (toks.map WSMessage.token)
                (handleWebSocketMessage (.token t) st) := by
        simp [processEvents]
      have hmsgs1 :
          (handleWebSocketMessage (.token t) st).messages
            = ms ++ [{ m with content := st.currentMessage ++ t }] := by
        simp only [handleWebSocketMessage, hmsgs, updateLast_append, hguard,
          if_true]
      have hacc1 :
          (handleWebSocketMessage (.token t) st).currentMessage
            = st.currentMessage ++ t := rfl
      have h2 := ih (handleWebSocketMessage (.token t) st) ms
        { m with content := st.currentMessage ++ t }
        hmsgs1 hrole hstream (by rw [hacc1])
      rw [hstep]
      refine ⟨?_, ?_⟩
      · rw [h2.1, hacc1, concatAll, String.append_assoc]
      · rw [h2.2, hacc1, concatAll, String.append_assoc]

/-! Sample data used by witnesses and counterexamples. -/

/-- Sample user message. -/
def sampleUser : Message :=
  { id := "0", role := .user, content := "Hello", timestamp := "t" }

/-- Sample streaming assistant placeholder, as created at the start of a
turn. -/
def samplePlaceholder : Message :=
  { id := "1", role := .assistant, content := "", timestamp := "t",
    isStreaming := true }

/-- Sample completed (non-streaming) assistant message. -/
def finishedAssistant : Message :=
  { id := "a", role := .assistant, content := "done", timestamp := "t" }

/-- Sample assistant message still flagged streaming, with content. -/
def streamingAssistant : Message :=
  { id := "s", role := .assistant, content := "x", timestamp := "t",
    isStreaming := true }

/-- App state mid-turn with the given message list, loading flag set and
empty accumulator. -/
def midTurnState (ms : List Message) : AppState :=
  { messages := ms, isLoading := true, status := "", error := none,
    currentMessage := "", refreshes := 0 }

/-! Claims. -/

/-- C1: for every sequence of inbound token events of one turn, started
with an empty accumulator and with the last element of the message list
being the turn's streaming assistant message (content empty, mirroring
the accumulator), processing the sequence leaves the earlier messages
untouched and sets the streaming message's content to the concatenation
of all token payloads in arrival order. -/
theorem token_stream_concat (toks : List String) (ms : List Message)
    (m : Message) (st : AppState) (hmsgs : st.messages = ms ++ [m])
    (hrole : m.role = .assistant) (hstream : m.isStreaming = true)
    (hacc : st.currentMessage = "") (hcontent : m.content = "") :
    (processEvents (toks.map WSMessage.token) st).messages
      = ms ++ [{ m with content := concatAll toks }] := by
  have h := (token_fold toks st ms m hmsgs hrole hstream
    (by rw [hacc, hcontent])).1
  rw [hacc] at h
  simpa using h

/-- Witness for C1: the spec scenario, tokens "Hi" and " there" on a
fresh placeholder produce content "Hi there". -/
theorem token_stream_concat_witness :
    (processEvents (["Hi", " there"].map WSMessage.token)
        (midTurnState [sampleUser, samplePlaceholder])).messages
      = [sampleUser] ++ [{ samplePlaceholder with content := concatAll ["Hi", " there"] }] :=
  token_stream_concat ["Hi", " there"] [sampleUser] samplePlaceholder
    (midTurnState [sampleUser, samplePlaceholder]) rfl rfl rfl rfl rfl

theorem processEvents_append (xs ys : List WSMessage) (st : AppState) :
    processEvents (xs ++ ys) st = processEvents ys (processEvents xs st) := by
  simp [processEvents, List.foldl_append]

/-- C2 counterexample: start with the empty store, send "Hello"
successfully (optimistic append of user message and placeholder), then
process an error event.  The claim says the resulting length equals the
pre-turn length (0); the code leaves the user message in place, so the
length is 1. -/
theorem error_length_cex :
    ((handleWebSocketMessage (.error "rate limited")
        ((sendMessageToServer "c1" "Hello" 0 "t" initialState true).1)).messages.length = 1)
    ∧ initialState.messages.length = 0
    ∧ ((handleWebSocketMessage (.error "rate limited")
        ((sendMessageToServer "c1" "Hello" 0 "t" initialState true).1)).messages.length
        ≠ initialState.messages.length) := by
  refine ⟨rfl, rfl, by decide⟩

/-- C2 amended: for every store state in which a turn was started (the
optimistic append added the user message and the assistant placeholder),
processing an error event — with any number of token events first —
removes the assistant placeholder entirely, and the resulting message
list length equals the length immediately before the turn started plus
one: the user message of the optimistic append remains in place. -/
theorem error_removes_placeholder (st : AppState) (cid content : String)
    (now : Nat) (ts emsg : String) (toks : List String) :
    (processEvents (toks.map WSMessage.token ++ [WSMessage.error emsg])
        (sendMessageToServer cid content now ts st true).1).messages
        = st.messages ++ [userMessageOf now content ts]
    ∧ (processEvents (toks.map WSMessage.token ++ [WSMessage.error emsg])
        (sendMessageToServer cid content now ts st true).1).messages.length
        = st.messages.length + 1 := by
  have hmsgs : ((sendMessageToServer cid content now ts st true).1).messages
      = (st.messages ++ [userMessageOf now content ts])
          ++ [assistantPlaceholder now ts] := rfl
  have hfold := token_fold toks (sendMessageToServer cid content now ts st true).1
    (st.messages ++ [userMessageOf now content ts])
    (assistantPlaceholder now ts) hmsgs rfl rfl rfl
  have hmain :
      (processEvents (toks.map WSMessage.token ++ [WSMessage.error emsg])
        (sendMessageToServer cid content now ts st true).1).messages
        = st.messages ++ [userMessageOf now content ts] := by
    rw [processEvents_append]
    show popLastIf (fun m => m.isStreaming)
        (processEvents (toks.map WSMessage.token)
          (sendMessageToServer cid content now ts st true).1).messages = _
    rw [hfold.1, popLastIf_append]
    simp [assistantPlaceholder]
  exact ⟨hmain, by rw [hmain]; simp⟩

/-- C3 counterexample: send "Hello" as a brand-new turn on the empty
store with the channel not open (send returns false).  The claim says
the store reverts to empty; the code runs `prev.slice(0, -1)`, dropping
only the placeholder, so the user message remains and the store has
length 1.  The error banner does show "Not connected to server". -/
theorem send_failure_empty_cex :
    ((sendMessageToServer "c1" "Hello" 0 "t" initialState false).1).messages
        = [userMessageOf 0 "Hello" "t"]
    ∧ ((sendMessageToServer "c1" "Hello" 0 "t" initialState false).1).messages ≠ []
    ∧ ((sendMessageToServer "c1" "Hello" 0 "t" initialState false).1).error
        = some "Not connected to server" := by
  refine ⟨?_, by decide, rfl⟩
  show (([] ++ [userMessageOf 0 "Hello" "t"])
      ++ [assistantPlaceholder 0 "t"]).dropLast = _
  rw [List.dropLast_concat]
  rfl

/-- C3 amended: when send() returns false immediately after the
optimistic append of a brand-new turn on an initially empty message
list, the store reverts to exactly the user message (only the assistant
placeholder is removed; the user message is kept), and the error banner
shows "Not connected to server". -/
theorem send_failure_new_turn (cid content : String) (now : Nat)
    (ts : String) (isL : Bool) (statusText : String) (err : Option String)
    (acc : String) (r : Nat) :
    ((sendMessageToServer cid content now ts
        ⟨[], isL, statusText, err, acc, r⟩ false).1).messages
        = [userMessageOf now content ts]
    ∧ ((sendMessageToServer cid content now ts
        ⟨[], isL, statusText, err, acc, r⟩ false).1).error
        = some "Not connected to server"
    ∧ ((sendMessageToServer cid content now ts
        ⟨[], isL, statusText, err, acc, r⟩ false).1).isLoading = false := by
  refine ⟨?_, rfl, rfl⟩
  show (([] ++ [userMessageOf now content ts])
      ++ [assistantPlaceholder now ts]).dropLast = _
  rw [List.dropLast_concat]
  rfl

/-- C4 counterexample: a state violating the streaming-message-is-last
invariant — a streaming assistant message followed by a user message.
The complete handler only touches the last element and only when it is
an assistant message, so the streaming flag survives: one streaming
message remains, not zero as the claim demands for every state. -/
theorem complete_streaming_cex :
    countStreaming ((handleWebSocketMessage (.complete "")
        (midTurnState [streamingAssistant, sampleUser])).messages) = 1
    ∧ countStreaming ((handleWebSocketMessage (.complete "")
        (midTurnState [streamingAssistant, sampleUser])).messages) ≠ 0 := by
  refine ⟨rfl, by decide⟩

/-- C4 amended: for every message-list state satisfying the store
invariant — every message except possibly the last is not streaming, and
a streaming last message is an assistant message — processing a complete
event leaves exactly zero messages with the streaming flag set.  (In
states violating the invariant, e.g. a streaming message that is not the
last element, the flag can survive.) -/
theorem complete_clears_streaming (st : AppState) (c : String)
    (hpre : ∀ m ∈ st.messages.dropLast, m.isStreaming = false)
    (hlast : ∀ m, st.messages.getLast? = some m → m.isStreaming = true →
      m.role = Role.assistant) :
    countStreaming (handleWebSocketMessage (.complete c) st).messages = 0 := by
  rcases List.eq_nil_or_concat st.messages with hnil | ⟨ms, m, hconcat⟩
  · show countStreaming (updateLast (fun m => m.role == Role.assistant)
        (fun m => { m with isStreaming := false }) st.messages) = 0
    rw [hnil]; rfl
  · have hconcat' : st.messages = ms ++ [m] := by simpa using hconcat
    show countStreaming (updateLast (fun m => m.role == Role.assistant)
        (fun m => { m with isStreaming := false }) st.messages) = 0
    rw [hconcat', updateLast_append, countStreaming_append]
    have hms : countStreaming ms = 0 := by
      have hall : ∀ x ∈ ms, x.isStreaming = false := by
        intro x hx
        apply hpre
        rw [hconcat', List.dropLast_concat]
        exact hx
      simp only [countStreaming]
      rw [List.filter_eq_nil_iff.mpr (by intro a ha; simp [hall a ha])]
      rfl
    rw [hms]
    by_cases hrole : m.role = Role.assistant
    · simp [countStreaming, hrole]
    · have hstream : m.isStreaming = false := by
        by_contra hcon
        exact hrole (hlast m (by rw [hconcat']; exact List.getLast?_concat _)
          (by simpa using hcon))
      simp [countStreaming, hrole, hstream]

/-- Witness for C4's amended theorem: a valid mid-turn state (user
message followed by a streaming assistant message) ends with zero
streaming messages after complete. -/
theorem complete_clears_streaming_witness :
    countStreaming ((handleWebSocketMessage (.complete "")
        (midTurnState [sampleUser, streamingAssistant])).messages) = 0 :=
  complete_clears_streaming (midTurnState [sampleUser, streamingAssistant]) ""
    (by decide)
    (fun m hm _ => by
      rw [show (midTurnState [sampleUser, streamingAssistant]).messages.getLast?
          = some streamingAssistant from rfl] at hm
      injection hm with h
      rw [← h]
      rfl)

/-- C5: whenever send returns failure after the optimistic append of a
turn started from an idle state (no streaming message yet in the list),
the session reverts: the assistant placeholder is removed, the user's
message is left in place, the error banner shows the connectivity error,
loading returns to idle, and no streaming-flagged message remains. -/
theorem send_failure_reverts (st : AppState) (cid content : String)
    (now : Nat) (ts : String) (h : countStreaming st.messages = 0) :
    ((sendMessageToServer cid content now ts st false).1).messages
        = st.messages ++ [userMessageOf now content ts]
    ∧ ((sendMessageToServer cid content now ts st false).1).error
        = some "Not connected to server"
    ∧ ((sendMessageToServer cid content now ts st false).1).isLoading = false
    ∧ countStreaming ((sendMessageToServer cid content now ts st false).1).messages
        = 0 := by
  have hmsgs : ((sendMessageToServer cid content now ts st false).1).messages
      = st.messages ++ [userMessageOf now content ts] := by
    show ((st.messages ++ [userMessageOf now content ts])
        ++ [assistantPlaceholder now ts]).dropLast = _
    rw [List.dropLast_concat]
  refine ⟨hmsgs, rfl, rfl, ?_⟩
  rw [hmsgs, countStreaming_append, h]
  rfl

/-- Witness for C5: send failure from the initial (empty, idle) state. -/
theorem send_failure_reverts_witness :
    ((sendMessageToServer "c1" "Hello" 0 "t" initialState false).1).messages
        = initialState.messages ++ [userMessageOf 0 "Hello" "t"]
    ∧ ((sendMessageToServer "c1" "Hello" 0 "t" initialState false).1).error
        = some "Not connected to server"
    ∧ ((sendMessageToServer "c1" "Hello" 0 "t" initialState false).1).isLoading
        = false
    ∧ countStreaming
        ((sendMessageToServer "c1" "Hello" 0 "t" initialState false).1).messages
        = 0 :=
  send_failure_reverts initialState "c1" "Hello" 0 "t" rfl

/-- Sample structured debug payload. -/
def sampleDebug : QueryDebugInfo :=
  { original_query := "q", expanded_queries := [], cql_query := "",
    pages_searched := 0, total_chunks_considered := 0, chunks_selected := 0,
    context_chars_used := 0, context_budget := 0, top_k := 0,
    mmr_lambda := 0, max_chunks_per_page := 0, selected_chunks_info := [] }

/-- C6 counterexample: a completed assistant message (streaming flag
cleared) is the last element; a sources event still appends to its
content, so content is not immutable after completion. -/
theorem sources_mutates_completed_cex :
    ((handleWebSocketMessage (.sources "X")
        (midTurnState [finishedAssistant])).messages.map Message.content)
        = ["doneX"]
    ∧ ((handleWebSocketMessage (.sources "X")
        (midTurnState [finishedAssistant])).messages.map Message.content)
        ≠ (midTurnState [finishedAssistant]).messages.map Message.content := by
  refine ⟨rfl, by decide⟩

/-- C6 amended: every message-mutating event touches only the last
element of the list, but the guards differ per event: token mutates the
last element only when it is an assistant message still marked
streaming; sources and debug mutate it whenever it is an assistant
message, regardless of the streaming flag (so sources appends to a
completed assistant message's content); complete clears the flag of any
last assistant message; error removes the last element whenever it is
flagged streaming, regardless of role; status never mutates the list. -/
theorem event_guard_discipline (st : AppState) (ms : List Message)
    (m : Message) (c s : String) (d : QueryDebugInfo)
    (h : st.messages = ms ++ [m]) :
    ((m.role = Role.assistant ∧ m.isStreaming = true →
        (handleWebSocketMessage (.token c) st).messages
          = ms ++ [{ m with content := st.currentMessage ++ c }])
      ∧ (¬(m.role = Role.assistant ∧ m.isStreaming = true) →
        (handleWebSocketMessage (.token c) st).messages = ms ++ [m]))
    ∧ ((m.role = Role.assistant →
        (handleWebSocketMessage (.sources c) st).messages
          = ms ++ [{ m with content := m.content ++ c, sources := some c }])
      ∧ (m.role ≠ Role.assistant →
        (handleWebSocketMessage (.sources c) st).messages = ms ++ [m]))
    ∧ ((m.role = Role.assistant →
        (handleWebSocketMessage (.debug d) st).messages
          = ms ++ [{ m with debugInfo := some d }])
      ∧ (m.role ≠ Role.assistant →
        (handleWebSocketMessage (.debug d) st).messages = ms ++ [m]))
    ∧ ((m.role = Role.assistant →
        (handleWebSocketMessage (.complete s) st).messages
          = ms ++ [{ m with isStreaming := false }])
      ∧ (m.role ≠ Role.assistant →
        (handleWebSocketMessage (.complete s) st).messages = ms ++ [m]))
    ∧ ((m.isStreaming = true →
        (handleWebSocketMessage (.error s) st).messages = ms)
      ∧ (m.isStreaming = false →
        (handleWebSocketMessage (.error s) st).messages = ms ++ [m]))
    ∧ (handleWebSocketMessage (.status s) st).messages = st.messages := by
  refine ⟨⟨?_, ?_⟩, ⟨?_, ?_⟩, ⟨?_, ?_⟩, ⟨?_, ?_⟩, ⟨?_, ?_⟩, rfl⟩
  · intro hg
    show updateLast (fun m => m.role == Role.assistant && m.isStreaming)
        (fun m => { m with content := st.currentMessage ++ c })
        st.messages = _
    rw [h, updateLast_append]
    simp [hg.1, hg.2]
  · intro hg
    show updateLast (fun m => m.role == Role.assistant && m.isStreaming)
        (fun m => { m with content := st.currentMessage ++ c })
        st.messages = _
    rw [h, updateLast_append]
    by_cases h1 : m.role = Role.assistant
    · have h2 : m.isStreaming = false := by
        cases h2 : m.isStreaming
        · rfl
        · exact absurd ⟨h1, h2⟩ hg
      simp [h1, h2]
    · simp [h1]
  · intro hg
    show updateLast (fun m => m.role == Role.assistant)
        (fun m => { m with content := m.content ++ c, sources := some c })
        st.messages = _
    rw [h, updateLast_append]
    simp [hg]
  · intro hg
    show updateLast (fun m => m.role == Role.assistant)
        (fun m => { m with content := m.content ++ c, sources := some c })
        st.messages = _
    rw [h, updateLast_append]
    simp [hg]
  · intro hg
    show updateLast (fun m => m.role == Role.assistant)
        (fun m => { m with debugInfo := some d }) st.messages = _
    rw [h, updateLast_append]
    simp [hg]
  · intro hg
    show updateLast (fun m => m.role == Role.assistant)
        (fun m => { m with debugInfo := some d }) st.messages = _
    rw [h, updateLast_append]
    simp [hg]
  · intro hg
    show updateLast (fun m => m.role == Role.assistant)
        (fun m => { m with isStreaming := false }) st.messages = _
    rw [h, updateLast_append]
    simp [hg]
  · intro hg
    show updateLast (fun m => m.role == Role.assistant)
        (fun m => { m with isStreaming := false }) st.messages = _
    rw [h, updateLast_append]
    simp [hg]
  · intro hg
    show popLastIf (fun m => m.isStreaming) st.messages = _
    rw [h, popLastIf_append]
    simp [hg]
  · intro hg
    show popLastIf (fun m => m.isStreaming) st.messages = _
    rw [h, popLastIf_append]
    simp [hg]

/-- Witness for C6's amended theorem: a sources event on a completed
assistant message appends to its content and records the citation. -/
theorem event_guard_discipline_witness :
    (handleWebSocketMessage (.sources " more")
        (midTurnState [finishedAssistant])).messages
      = [] ++ [{ finishedAssistant with
          content := finishedAssistant.content ++ " more",
          sources := some " more" }] :=
  ((event_guard_discipline (midTurnState [finishedAssistant]) []
      finishedAssistant " more" "s" sampleDebug rfl).2.1).1 rfl

/-- Scheme of a URL: the characters before the first colon. -/
def urlScheme (u : String) : List Char :=
  u.data.takeWhile (fun ch => ch != ':')

/-- Sample page location loaded over a secure transport. -/
def sampleLocation : PageLocation :=
  { protocol := "https:", host := "example.com" }

/-- Connection state with an OPEN channel. -/
def wsOpenState : WSConnState :=
  { isConnecting := false, ws := some ReadyState.opened }

/-- Connection state with no channel and no connect in flight. -/
def wsIdleState : WSConnState := { isConnecting := false, ws := none }

/-- C7: connect() is a no-op (no new channel, state unchanged) when a
connect is already in flight or the channel is already open; otherwise
it opens exactly one new channel, in the CONNECTING state, to the fixed
endpoint derived from the current origin, and that endpoint's scheme is
the secure scheme "wss" exactly when the page was loaded over a secure
transport ("https:"). -/
theorem connect_idempotent (loc : PageLocation) (st : WSConnState) :
    ((st.isConnecting = true ∨ st.ws = some ReadyState.opened) →
        connect loc st = (st, none))
    ∧ (¬(st.isConnecting = true ∨ st.ws = some ReadyState.opened) →
        connect loc st
            = ({ isConnecting := true, ws := some ReadyState.connecting },
               some (wsUrlOf loc))
          ∧ (urlScheme (wsUrlOf loc) = ['w', 's', 's']
              ↔ loc.protocol = "https:")) := by
  constructor
  · intro hg
    simp [connect, hg]
  · intro hg
    refine ⟨by simp [connect, hg], ?_⟩
    by_cases hp : loc.protocol = "https:"
    · simp only [hp, iff_true]
      have hdata : (wsUrlOf loc).data
          = 'w' :: 's' :: 's' :: ':' ::
            (("//").data ++ (loc.host.data ++ ("/ws/chat").data)) := by
        show ((((if loc.protocol = "https:" then "wss:" else "ws:")
            ++ "//") ++ loc.host) ++ "/ws/chat").data = _
        rw [if_pos hp]
        simp only [String.data_append, List.append_assoc]
        rfl
      show (wsUrlOf loc).data.takeWhile (fun ch => ch != ':') = _
      rw [hdata]
      rfl
    · simp only [hp, iff_false]
      intro hsec
      have hdata : (wsUrlOf loc).data
          = 'w' :: 's' :: ':' ::
            (("//").data ++ (loc.host.data ++ ("/ws/chat").data)) := by
        show ((((if loc.protocol = "https:" then "wss:" else "ws:")
            ++ "//") ++ loc.host) ++ "/ws/chat").data = _
        rw [if_neg hp]
        simp only [String.data_append, List.append_assoc]
        rfl
      have hws : urlScheme (wsUrlOf loc) = ['w', 's'] := by
        show (wsUrlOf loc).data.takeWhile (fun ch => ch != ':') = _
        rw [hdata]
        rfl
      rw [hws] at hsec
      exact absurd hsec (by decide)

/-- Witness for C7: from an idle state connect opens one channel; from
an open state it is a no-op. -/
theorem connect_idempotent_witness :
    connect sampleLocation wsOpenState = (wsOpenState, none)
    ∧ connect sampleLocation wsIdleState
        = ({ isConnecting := true, ws := some ReadyState.connecting },
           some (wsUrlOf sampleLocation)) :=
  ⟨(connect_idempotent sampleLocation wsOpenState).1 (Or.inr rfl),
   ((connect_idempotent sampleLocation wsIdleState).2 (by simp [wsIdleState])).1⟩

/-- C8: an inbound frame whose payload fails to parse is logged and
dropped with no other side effects: the message callback is not invoked
(no event is delivered), the app state is not mutated, and the handler
returns normally (it is a total function, so no exception escapes). -/
theorem malformed_frame_dropped (parse : String → Option WSMessage)
    (frame : String) (st : AppState) (h : parse frame = none) :
    onFrame parse frame st = (st, none, true) := by
  simp [onFrame, h]

/-- Witness for C8: a parser rejecting everything, on a garbage frame. -/
theorem malformed_frame_dropped_witness :
    onFrame (fun _ => none) "not json" initialState
      = (initialState, none, true) :=
  malformed_frame_dropped (fun _ => none) "not json" initialState rfl

/-- C9: an error event arriving when the message list is empty or its
last element is not marked streaming sets the user-visible error text
and resets loading, status and the accumulator, but leaves the message
list (and everything else) entirely unchanged — it never removes a
non-streaming message. -/
theorem error_no_streaming_noop (st : AppState) (c : String)
    (h : ∀ m, st.messages.getLast? = some m → m.isStreaming = false) :
    handleWebSocketMessage (.error c) st
      = { st with
          error := some c, isLoading := false, status := "",
          currentMessage := "" } := by
  have hmsgs : popLastIf (fun m => m.isStreaming) st.messages
      = st.messages := by
    rcases List.eq_nil_or_concat st.messages with hnil | ⟨ms, m, hconcat⟩
    · rw [hnil]; rfl
    · have hconcat' : st.messages = ms ++ [m] := by simpa using hconcat
      have hm : m.isStreaming = false :=
        h m (by rw [hconcat']; exact List.getLast?_concat _)
      rw [hconcat', popLastIf_append]
      simp [hm]
  show ({ st with
          error := some c, isLoading := false, status := "",
          currentMessage := "",
          messages := popLastIf (fun m => m.isStreaming) st.messages } : AppState)
      = _
  rw [hmsgs]

/-- Witness for C9: an error event after a turn already ended (the last
message is a non-streaming user message) changes no message. -/
theorem error_no_streaming_noop_witness :
    handleWebSocketMessage (.error "boom") (midTurnState [sampleUser])
      = { midTurnState [sampleUser] with
          error := some "boom",
          isLoading := false, status := "", currentMessage := "" } :=
  error_no_streaming_noop (midTurnState [sampleUser]) "boom"
    (fun m hm => by
      rw [show (midTurnState [sampleUser]).messages.getLast?
          = some sampleUser from rfl] at hm
      injection hm with h2
      rw [← h2]
      rfl)

/-- C10: the outbound payload's history field is built from the message
list as it stood before the turn's optimistic append: it contains
exactly the prior messages' role/content pairs in list order (whatever
the send outcome), so its length is the prior list's length, two less
than the post-append list — the new user message and the placeholder are
excluded — and no length bound is applied. -/
theorem history_is_preturn_snapshot (cid content : String) (now : Nat)
    (ts : String) (st : AppState) :
    ((sendMessageToServer cid content now ts st true).2).history
        = st.messages.map (fun m => (m.role, m.content))
    ∧ ((sendMessageToServer cid content now ts st false).2).history
        = st.messages.map (fun m => (m.role, m.content))
    ∧ ((sendMessageToServer cid content now ts st true).2).history.length
        = st.messages.length
    ∧ ((sendMessageToServer cid content now ts st true).1).messages.length
        = st.messages.length + 2 := by
  refine ⟨rfl, rfl, ?_, ?_⟩
  · show (st.messages.map (fun m => (m.role, m.content))).length
        = st.messages.length
    simp
  · show ((st.messages ++ [userMessageOf now content ts])
        ++ [assistantPlaceholder now ts]).length = _
    simp

end ConfluenceChat
